import Mathlib

/-!
Verification development for the Napa Valley wine-concierge service
(`tools.py`, `wine_agent.py`, `main.py`).

The Python code is shallowly embedded: every tool method becomes a total
Lean function over explicit collaborator oracles (geocoding HTTP API,
current-conditions HTTP API, web-search API, completion API, file system),
Python exceptions are modelled with `Except`, and the outbound calls a
method performs are returned as an explicit trace list.
-/

/-! ## Python string primitives

Models of the `str` operations the source uses: `lower()` (exact on the
ASCII range used by all keyword sets), `strip()`, `split('\n')`,
slicing `[:n]`, `capitalize()`, and the `in` substring test.  All are
structurally recursive over `List Char` so that concrete instances reduce
in the kernel. -/

/-- Model of Python `str.lower()` (character-wise lowering). -/
def pyLower (s : String) : String :=
  String.mk (s.data.map Char.toLower)

/-- Model of Python `str.strip()`: drop whitespace at both ends. -/
def pyStrip (s : String) : String :=
  String.mk (((s.data.dropWhile Char.isWhitespace).reverse.dropWhile
    Char.isWhitespace).reverse)

/-- Model of Python string slicing `s[:n]` (by characters). -/
def pyTake (n : Nat) (s : String) : String :=
  String.mk (s.data.take n)

/-- Model of Python `str.capitalize()`: first character uppercased, the
rest lowercased. -/
def pyCapitalize (s : String) : String :=
  match s.data with
  | [] => ""
  | c :: rest => String.mk (c.toUpper :: rest.map Char.toLower)

/-- Tests whether `pat` is an initial segment of `l`. -/
def listStartsWith : List Char → List Char → Bool
  | [], _ => true
  | _ :: _, [] => false
  | a :: as, b :: bs => a == b && listStartsWith as bs

/-- Tests whether `pat` occurs contiguously in `l`. -/
def listContainsSub (pat : List Char) : List Char → Bool
  | [] => pat.isEmpty
  | c :: rest => listStartsWith pat (c :: rest) || listContainsSub pat rest

/-- Model of Python `pat in s` for strings (contiguous substring test). -/
def strContainsSub (s pat : String) : Bool :=
  listContainsSub pat.data s.data

/-- Split a character list at every newline, Python `str.split('\n')`
style: the empty input yields one empty field, a trailing newline yields a
trailing empty field. -/
def splitNlChars : List Char → List (List Char)
  | [] => [[]]
  | c :: rest =>
    match splitNlChars rest with
    | [] => [[]]
    | h :: t => if c == '\n' then [] :: h :: t else (c :: h) :: t

/-- Model of Python `s.split('\n')`. -/
def pySplitLines (s : String) : List String :=
  (splitNlChars s.data).map String.mk

/-- Model of Python `'\n'.join(xs)`. -/
def joinWithNewline : List String → String
  | [] => ""
  | [s] => s
  | s :: rest => s ++ "\n" ++ joinWithNewline rest

/-! ## Outcomes of external HTTP calls

`requests.get(...)` either returns a response (200 with a well-formed
body, or a non-200 status) or raises (network error; a malformed payload
likewise raises inside `response.json()`). -/

/-- Outcome of one outbound HTTP request: 200 with parsed body `α`,
a non-200 status code, or a raised exception carrying its text. -/
inductive HttpOutcome (α : Type)
  | ok (body : α)
  | errStatus (code : Nat)
  | exn (msg : String)
deriving DecidableEq

/-! ## `tools.py` — `WeatherTool` -/

/-- The fields `get_weather` extracts from a 200 current-conditions
payload; each is kept as the text it is rendered to inside the f-string
(`'N/A'` defaults already folded in by the oracle). -/
structure CurrentData where
  temp : String
  description : String
  humidity : String
deriving DecidableEq

/-- The two external collaborators of `WeatherTool`: the geocoding API
(city → list of coordinate pairs) and the current-conditions API. -/
structure WeatherEnv where
  geocode : String → HttpOutcome (List (ℚ × ℚ))
  current : ℚ → ℚ → HttpOutcome CurrentData

/-- One outbound call of `WeatherTool`, recorded in the trace. -/
inductive WxCall
  | geocode (q : String)
  | current (lat lon : ℚ)
deriving DecidableEq

/-- The dynamically-typed `location` argument of `get_weather`: a string,
a tuple of two numbers, or a bare number (as passed by `/api/weather`). -/
inductive PyLoc
  | str (s : String)
  | pair (lat lon : ℚ)
  | num (x : ℚ)
deriving DecidableEq

/-- Source `tools.py:39`. -/
def couldntFindMsg (loc : String) : String :=
  "Sorry, I couldn't find the coordinates for " ++ loc ++
    ". Please try another nearby city."

/-- Source `tools.py:60`. -/
def errorCodeMsg (c : Nat) : String :=
  "Sorry, I'm having trouble getting the weather information right now. Error code: "
    ++ toString c

/-- Source `tools.py:63`. -/
def weatherApologyMsg (e : String) : String :=
  "I apologize, but I'm having trouble accessing the weather information. Please try again later. Error: "
    ++ e

/-- Source `tools.py:54-57`: the success sentence of `get_weather`. -/
def weatherInfoMsg (loc : String) (d : CurrentData) : String :=
  "Current weather in " ++ loc ++ ": " ++ d.temp ++ "°C, " ++
    pyCapitalize d.description ++ ". Humidity: " ++ d.humidity ++ "%"

/-- Embeds `WeatherTool._get_coordinates` (`tools.py:13-24`): one geocoding
request; 200 with a non-empty result list yields the first pair, 200 with
an empty list or any non-200 status yields `(None, None)`, a raised
exception propagates (`Except.error`). -/
def get_coordinates (env : WeatherEnv) (city : String) :
    Except String (Option ℚ × Option ℚ) :=
  match env.geocode city with
  | .ok results =>
    .ok (match results with
      | [] => (none, none)
      | (la, lo) :: _ => (some la, some lo))
  | .errStatus _ => .ok (none, none)
  | .exn m => .error m

/-- The current-conditions request of `get_weather` (`tools.py:42-60`):
200 formats the reading, non-200 returns the error-code sentence, an
exception propagates. -/
def fetchCurrent (env : WeatherEnv) (locLabel : String) (la lo : ℚ) :
    Except String String :=
  match env.current la lo with
  | .ok d => .ok (weatherInfoMsg locLabel d)
  | .errStatus c => .ok (errorCodeMsg c)
  | .exn m => .error m

/-- Body of the `try:` block of `WeatherTool.get_weather`
(`tools.py:28-60`), together with the trace of outbound calls.
`location.lower()` is evaluated first, so a non-string `location` raises
`AttributeError` before the `isinstance(location, tuple)` check can run;
the tuple branch of the source is therefore unreachable.  The unused
`exclude` parameter of the source is dropped. -/
def get_weather_inner (env : WeatherEnv) (location : PyLoc) :
    Except String String × List WxCall :=
  match location with
  | .pair _ _ => (.error "'tuple' object has no attribute 'lower'", [])
  | .num _ => (.error "'float' object has no attribute 'lower'", [])
  | .str s =>
    if pyStrip (pyLower s) = "napa, ca" then
      (fetchCurrent env s (38.2975 : ℚ) (-122.2869 : ℚ),
       [WxCall.current (38.2975 : ℚ) (-122.2869 : ℚ)])
    else
      match get_coordinates env s with
      | .error m => (.error m, [WxCall.geocode s])
      | .ok (some la, some lo) =>
        (fetchCurrent env s la lo, [WxCall.geocode s, WxCall.current la lo])
      | .ok _ => (.ok (couldntFindMsg s), [WxCall.geocode s])

/-- Embeds `WeatherTool.get_weather` (`tools.py:26-63`): the `try/except` wrapper
converts any exception of the body into the apology sentence; the result
is the returned string together with the trace of outbound calls. -/
def get_weather (env : WeatherEnv) (location : PyLoc) :
    String × List WxCall :=
  match get_weather_inner env location with
  | (.ok s, t) => (s, t)
  | (.error e, t) => (weatherApologyMsg e, t)

/-! ## `tools.py` — `WebSearchTool` -/

/-- One raw result of the search collaborator (`title`, `body`, `href`). -/
structure DDGResult where
  title : String
  body : String
  href : String
deriving DecidableEq

/-- Source `tools.py:82-85`: one formatted search result (1-based index, snippet
sliced to 200 characters, trailing newline). -/
def formatSearchResult (i : Nat) (r : DDGResult) : String :=
  toString i ++ ". " ++ r.title ++ "\n   " ++ pyTake 200 r.body ++
    "...\n   Source: " ++ r.href ++ "\n"

/-- Source `tools.py:79-85`: `enumerate(results, 1)` formatting. -/
def formatSearchResults : Nat → List DDGResult → List String
  | _, [] => []
  | i, r :: rest => formatSearchResult i r :: formatSearchResults (i + 1) rest

/-- Source `tools.py:77`. -/
def noResultsMsg : String := "No search results found."

/-- Source `tools.py:90`. -/
def searchErrMsg (e : String) : String := "Web search error: " ++ e

/-- Embeds `WebSearchTool.search_web` (`tools.py:71-90`).  The collaborator
`ddg.text(query, max_results=n)` is embedded as an oracle returning the
full result stream for the query (or raising); the documented `max_results`
truncation of the collaborator is the `take` at the call site.  A raised
exception is caught and returned as the formatted error string. -/
def search_web (ddgText : String → Except String (List DDGResult))
    (query : String) (max_results : Nat) : String :=
  match ddgText query with
  | .error e => searchErrMsg e
  | .ok stream =>
    if (stream.take max_results).isEmpty then noResultsMsg
    else
      "Web Search Results:\n" ++
        joinWithNewline (formatSearchResults 1 (stream.take max_results))

/-! ## `tools.py` — `WineKnowledgeBase` -/

/-- Outcome of opening and reading the knowledge file
(`tools.py:101-107`). -/
inductive FileOutcome
  | found (content : String)
  | notFound
  | readError (msg : String)
deriving DecidableEq

/-- Embeds `WineKnowledgeBase._load_knowledge` (`tools.py:99-107`). -/
def load_knowledge : FileOutcome → String
  | .found c => c
  | .notFound => "Wine business information file not found."
  | .readError e => "Error loading wine business information: " ++ e

/-- Source `tools.py:112` and `tools.py:119`. -/
def notAvailableMsg : String := "Wine business information is not available."

/-- Source `tools.py:129`. -/
def noMatchMsg (q : String) : String :=
  "No specific information found for '" ++ q ++ "' in our wine business database."

/-- Embeds `WineKnowledgeBase.get_business_info` (`tools.py:109-114`); the unused
`query` parameter of the source is dropped. -/
def get_business_info (knowledge_content : String) : String :=
  if knowledge_content = "" then notAvailableMsg else knowledge_content

/-- Embeds `WineKnowledgeBase.search_knowledge` (`tools.py:116-129`): an empty
(falsy) stored document short-circuits to the "not available" sentence;
otherwise the document is split into lines, filtered by the
case-insensitive substring test, and the first 10 matching lines are
joined — or the no-match sentence is returned when none match. -/
def search_knowledge (knowledge_content query : String) : String :=
  if knowledge_content = "" then notAvailableMsg
  else if ((pySplitLines knowledge_content).filter
      (fun line => strContainsSub (pyLower line) (pyLower query))).isEmpty then
    noMatchMsg query
  else
    joinWithNewline (((pySplitLines knowledge_content).filter
      (fun line => strContainsSub (pyLower line) (pyLower query))).take 10)

/-! ## `wine_agent.py` — routing and response generation -/

/-- Source `wine_agent.py:71`. -/
def wineKeywords : List String :=
  ["wine", "tasting", "vineyard", "bottle", "price", "hours", "reservation",
   "event", "cabernet", "chardonnay", "merlot", "pinot"]

/-- Source `wine_agent.py:76`. -/
def weatherKeywords : List String :=
  ["weather", "temperature", "rain", "sunny", "climate"]

/-- Source `wine_agent.py:81`. -/
def searchKeywords : List String :=
  ["news", "latest", "recent", "current", "search", "find", "trend"]

/-- Embeds `any(word in s for word in kws)`. -/
def containsAny (s : String) (kws : List String) : Bool :=
  kws.any (fun w => strContainsSub s w)

/-- The four branches of the `if/elif/elif/else` chain of
`classify_and_respond` (`wine_agent.py:71-88`), in source order. -/
inductive RouteBranch
  | wine
  | weather
  | web
  | fallback
deriving DecidableEq

/-- Branch selection of `classify_and_respond` (`wine_agent.py:64-88`):
the message is lowercased once and tested against the three keyword sets
in order; first match wins, anything unmatched falls through to the
default branch. -/
def routeBranch (user_input : String) : RouteBranch :=
  if containsAny (pyLower user_input) wineKeywords then RouteBranch.wine
  else if containsAny (pyLower user_input) weatherKeywords then RouteBranch.weather
  else if containsAny (pyLower user_input) searchKeywords then RouteBranch.web
  else RouteBranch.fallback

/-- The delegated tool call of each branch. -/
inductive ToolCall
  | knowledge (q : String)
  | weatherFor (loc : String)
  | webQuery (q : String)
deriving DecidableEq

/-- Which tool each branch of `classify_and_respond` invokes, and with
what argument (`wine_agent.py:72,77,82,87`): the wine branch and the
default branch both query the knowledge base with the full message, the
weather branch always asks for the fixed "Napa, CA" location, the search
branch searches the web with the full message. -/
def toolCallOf (user_input : String) : ToolCall :=
  match routeBranch user_input with
  | .wine => ToolCall.knowledge user_input
  | .weather => ToolCall.weatherFor "Napa, CA"
  | .web => ToolCall.webQuery user_input
  | .fallback => ToolCall.knowledge user_input

/-- The collaborators behind one `WineConciergeAgent`: the loaded
knowledge document, the weather collaborators, the search collaborator,
and the completion API (`llm system human` is the outcome of
`self.llm.invoke([...])` on those two messages). -/
structure AgentEnv where
  knowledge : String
  wx : WeatherEnv
  ddgText : String → Except String (List DDGResult)
  llm : String → String → Except String String

/-- Embeds `get_wine_knowledge` (`wine_agent.py:30-36`): a non-empty (truthy)
query searches the knowledge base, an empty one returns the full
document. -/
def get_wine_knowledge (knowledge_content query : String) : String :=
  if query ≠ "" then search_knowledge knowledge_content query
  else get_business_info knowledge_content

/-- The labeled context string each branch produces
(`wine_agent.py:71-88`). -/
def contextFor (env : AgentEnv) : ToolCall → String
  | .knowledge q => "Wine Business Information: " ++ get_wine_knowledge env.knowledge q
  | .weatherFor loc => "Weather Information: " ++ (get_weather env.wx (PyLoc.str loc)).1
  | .webQuery q => "Web Search Results: " ++ search_web env.ddgText q 3

/-- Source `wine_agent.py:48-60`: the fixed system persona. -/
def system_prompt : String :=
  "You are a knowledgeable and friendly wine concierge for Napa Valley Premium Winery. \n" ++
  "        Your role is to help customers with information about:\n" ++
  "        1. Our wines, prices, and tasting notes\n" ++
  "        2. Tasting room hours and reservations\n" ++
  "        3. Events and experiences\n" ++
  "        4. Current weather in Napa Valley\n" ++
  "        5. General wine knowledge and recommendations\n" ++
  "        6. Any current wine-related news or information through web search\n" ++
  "        \n" ++
  "        Always be helpful, professional, and enthusiastic about wine. Be conversational and engaging, \n" ++
  "        as if you're a sommelier helping customers in person.\n" ++
  "        \n" ++
  "        When you need information, I'll provide it through tools. Just focus on giving great responses."

/-- Source `wine_agent.py:97-103`: the user turn embedding the message and the
routed context. -/
def humanPrompt (user_input context : String) : String :=
  "User question: " ++ user_input ++
  "\n            \n            Available Information:\n            " ++ context ++
  "\n            \n            Please provide a helpful, engaging response as a wine concierge. Use the information above if relevant.\n            Keep your response conversational and friendly."

/-- Source `wine_agent.py:111`. -/
def processingApologyMsg (e : String) : String :=
  "I apologize, but I'm having trouble processing your request right now. Please try again. Error: "
    ++ e

/-- Embeds `WineConciergeAgent.classify_and_respond` (`wine_agent.py:62-111`):
route, build the context, send the two messages to the completion API,
and return its text — or the fixed apology carrying the exception text
when the call raises.  (The `try/except` around the context-building step
is unreachable in the embedding, since the embedded tools are total.) -/
def classify_and_respond (env : AgentEnv) (user_input : String) : String :=
  match env.llm system_prompt
      (humanPrompt user_input (contextFor env (toolCallOf user_input))) with
  | .ok r => r
  | .error e => processingApologyMsg e

/-- Embeds `WineConciergeAgent.chat` (`wine_agent.py:113-115`). -/
def chat (env : AgentEnv) (user_input : String) : String :=
  classify_and_respond env user_input

/-! ## `main.py` — HTTP boundary -/

/-- One incoming `/chat` request: the form field `message` (if the body
was form-encoded and carried one) and a `message` field of a JSON body
(if one was sent instead).  The handler signature
`message: str = Form(...)` (`main.py:46`) binds only the form field. -/
structure ChatRequest where
  formMessage : Option String
  jsonMessage : Option String

/-- A response body of the embedded endpoints. -/
inductive RespBody
  | chatOk (user_message bot_response status : String)
  | errBody (error : String) (details : Option String)
  | rawBody (s : String)
  | validationFailure
deriving DecidableEq

/-- Embeds `chat_endpoint` (`main.py:45-78`), FastAPI binding included: the
required `Form(...)` parameter means a request without the form field —
in particular a JSON body — fails framework validation with 422 before
the handler runs.  Inside the handler the agent-availability check (503)
precedes the emptiness check (400); a non-empty message reaches the agent
and its reply is returned verbatim with 200 / "success".  (The 500
catch-all of the source is unreachable in the embedding, since the
embedded agent is total.) -/
def chat_endpoint (agent : Option AgentEnv) (req : ChatRequest) :
    Nat × RespBody :=
  match req.formMessage with
  | none => (422, RespBody.validationFailure)
  | some message =>
    match agent with
    | none => (503, RespBody.errBody "Wine concierge agent not available" none)
    | some env =>
      if pyStrip message = "" then
        (400, RespBody.errBody "Please provide a message" none)
      else
        (200, RespBody.chatOk message (chat env message) "success")

/-- Embeds `weather_api` (`main.py:108-122`): 400 when either coordinate is
missing; otherwise 200 with the raw string of the weather-tool call the
source makes, `get_weather(lat, lon)` — `lat` arrives in the `location`
parameter and `lon` in the unused `exclude` parameter. -/
def weather_api (env : WeatherEnv) (lat lon : Option ℚ) : Nat × RespBody :=
  match lat, lon with
  | some la, some _ => (200, RespBody.rawBody (get_weather env (PyLoc.num la)).1)
  | _, _ => (400, RespBody.errBody "Latitude and longitude required" none)

/-! ## Stub collaborators and spec-side definitions -/

/-- Weather collaborators: geocoding finds nothing, current conditions
succeed. -/
def wxEnvStub : WeatherEnv :=
  ⟨fun _ => .ok [], fun _ _ => .ok ⟨"21", "clear sky", "40"⟩⟩

/-- Weather collaborators: geocoding answers 500. -/
def wxEnvGeo500 : WeatherEnv :=
  ⟨fun _ => .errStatus 500, fun _ _ => .ok ⟨"21", "clear sky", "40"⟩⟩

/-- Weather collaborators: geocoding raises. -/
def wxEnvGeoExn : WeatherEnv :=
  ⟨fun _ => .exn "timeout", fun _ _ => .ok ⟨"21", "clear sky", "40"⟩⟩

/-- Weather collaborators: geocoding succeeds, current conditions answer
404. -/
def wxEnvCur404 : WeatherEnv :=
  ⟨fun _ => .ok [((1 : ℚ), (2 : ℚ))], fun _ _ => .errStatus 404⟩

/-- Weather collaborators: geocoding succeeds, current conditions raise. -/
def wxEnvCurExn : WeatherEnv :=
  ⟨fun _ => .ok [((1 : ℚ), (2 : ℚ))], fun _ _ => .exn "reset"⟩

/-- An agent whose completion API always raises `"boom"`. -/
def agentEnvLLMFail : AgentEnv :=
  ⟨"", wxEnvStub, fun _ => .ok [], fun _ _ => .error "boom"⟩

/-- An agent whose completion API always returns the empty reply. -/
def agentEnvEmptyReply : AgentEnv :=
  ⟨"", wxEnvStub, fun _ => .ok [], fun _ _ => .ok ""⟩

/-- A search collaborator that always raises. -/
def ddgErrStub : String → Except String (List DDGResult) :=
  fun _ => .error "rate limited"

/-- A search collaborator with an empty result stream. -/
def ddgEmptyStub : String → Except String (List DDGResult) :=
  fun _ => .ok []

/-- A search collaborator with two results. -/
def ddgTwoStub : String → Except String (List DDGResult) :=
  fun _ => .ok [⟨"A", "alpha", "ua"⟩, ⟨"B", "beta", "ub"⟩]

/-- The lines of a document matching a query, as §4.2 of the spec words
it: case-insensitive substring match against the document split into
lines, in original document order. -/
def specMatchingLines (doc query : String) : List String :=
  (pySplitLines doc).filter (fun line => strContainsSub (pyLower line) (pyLower query))

/-! ## Helper lemmas -/

theorem listStartsWith_refl (l : List Char) : listStartsWith l l = true := by
  induction l with
  | nil => rfl
  | cons c cs ih => simp [listStartsWith, ih]

theorem listContainsSub_append (pre pat : List Char) :
    listContainsSub pat (pre ++ pat) = true := by
  induction pre with
  | nil =>
    cases pat with
    | nil => rfl
    | cons c cs => simp [listContainsSub, listStartsWith_refl]
  | cons c cs ih => simp [listContainsSub, ih]

/-- A string contains any of its suffixes as a substring. -/
theorem strContainsSub_append (pre pat : String) :
    strContainsSub (pre ++ pat) pat = true := by
  cases pre with
  | mk d1 =>
    cases pat with
    | mk d2 =>
      show listContainsSub d2 (d1 ++ d2) = true
      exact listContainsSub_append d1 d2

/-- Appending to a non-empty string stays non-empty. -/
theorem string_append_ne_empty (a b : String) (h : a ≠ "") : a ++ b ≠ "" := by
  intro hc
  apply h
  cases a with
  | mk d1 =>
    cases b with
    | mk d2 =>
      have hd : d1 ++ d2 = ([] : List Char) := congrArg String.data hc
      have h1 : d1 = [] := (List.append_eq_nil.mp hd).1
      rw [h1]

/-! ## Claims -/

/-- C1: the router selects exactly one branch by ordered, first-match-wins,
case-insensitive substring tests — any wine keyword takes the
wine-knowledge branch; otherwise a weather keyword takes the weather
branch; otherwise a web-search keyword takes the web branch; otherwise the
default branch queries the knowledge store with the full message.  In
particular a message with both a wine and a weather keyword takes the wine
branch. -/
theorem routing_first_match_wins (msg : String) :
    (containsAny (pyLower msg) wineKeywords = true →
       routeBranch msg = RouteBranch.wine ∧ toolCallOf msg = ToolCall.knowledge msg) ∧
    (containsAny (pyLower msg) wineKeywords = false →
       containsAny (pyLower msg) weatherKeywords = true →
       routeBranch msg = RouteBranch.weather ∧
         toolCallOf msg = ToolCall.weatherFor "Napa, CA") ∧
    (containsAny (pyLower msg) wineKeywords = false →
       containsAny (pyLower msg) weatherKeywords = false →
       containsAny (pyLower msg) searchKeywords = true →
       routeBranch msg = RouteBranch.web ∧ toolCallOf msg = ToolCall.webQuery msg) ∧
    (containsAny (pyLower msg) wineKeywords = false →
       containsAny (pyLower msg) weatherKeywords = false →
       containsAny (pyLower msg) searchKeywords = false →
       routeBranch msg = RouteBranch.fallback ∧
         toolCallOf msg = ToolCall.knowledge msg) ∧
    (containsAny (pyLower msg) wineKeywords = true →
       containsAny (pyLower msg) weatherKeywords = true →
       routeBranch msg = RouteBranch.wine) := by
  refine ⟨fun h1 => ?_, fun h1 h2 => ?_, fun h1 h2 h3 => ?_, fun h1 h2 h3 => ?_,
    fun h1 _ => ?_⟩
  · simp [routeBranch, toolCallOf, h1]
  · simp [routeBranch, toolCallOf, h1, h2]
  · simp [routeBranch, toolCallOf, h1, h2, h3]
  · simp [routeBranch, toolCallOf, h1, h2, h3]
  · simp [routeBranch, h1]

/-- C1 witness: concrete messages exercising each branch, including the
wine-over-weather precedence. -/
theorem routing_first_match_wins_witness :
    routeBranch "Is the WEATHER good for wine today?" = RouteBranch.wine ∧
    toolCallOf "how hot is it? temperature please" = ToolCall.weatherFor "Napa, CA" ∧
    routeBranch "latest napa news" = RouteBranch.web ∧
    toolCallOf "hello there" = ToolCall.knowledge "hello there" :=
  ⟨(routing_first_match_wins "Is the WEATHER good for wine today?").2.2.2.2
      (by decide) (by decide),
   ((routing_first_match_wins "how hot is it? temperature please").2.1
      (by decide) (by decide)).2,
   ((routing_first_match_wins "latest napa news").2.2.1
      (by decide) (by decide) (by decide)).1,
   ((routing_first_match_wins "hello there").2.2.2.1
      (by decide) (by decide) (by decide)).2⟩

/-- C2 counterexample: on the loaded-but-empty document, `search_knowledge`
returns the "not available" sentence, not the no-information-found message
the claim requires for a zero-match query. -/
theorem search_knowledge_empty_doc_counterexample :
    search_knowledge (load_knowledge (FileOutcome.found "")) "x" = notAvailableMsg ∧
    search_knowledge (load_knowledge (FileOutcome.found "")) "x" ≠ noMatchMsg "x" := by
  constructor
  · rfl
  · decide

/-- C2 amended: for every NON-EMPTY loaded document and every query,
`search_knowledge` performs a case-insensitive substring match on each
line, returns the first at most 10 matching lines joined by newlines in
original document order, and returns the fixed no-information-found
message naming the query when zero lines match; the empty (falsy)
document instead short-circuits to the fixed "not available" sentence.
The function is total (never throws). -/
theorem search_knowledge_spec (doc query : String) (hdoc : doc ≠ "") :
    (specMatchingLines doc query ≠ [] →
       search_knowledge doc query =
         joinWithNewline ((specMatchingLines doc query).take 10) ∧
       ((specMatchingLines doc query).take 10).length ≤ 10) ∧
    (specMatchingLines doc query = [] →
       search_knowledge doc query = noMatchMsg query) := by
  have hif : ∀ (l : List String), l.isEmpty = true ↔ l = [] := by
    intro l
    cases l <;> simp [List.isEmpty]
  constructor
  · intro hne
    refine ⟨?_, List.length_take_le 10 _⟩
    unfold search_knowledge
    rw [if_neg hdoc]
    show (if (specMatchingLines doc query).isEmpty = true then noMatchMsg query
        else joinWithNewline ((specMatchingLines doc query).take 10)) =
      joinWithNewline ((specMatchingLines doc query).take 10)
    rw [if_neg (fun hEmpty => hne ((hif _).mp hEmpty))]
  · intro he
    unfold search_knowledge
    rw [if_neg hdoc]
    show (if (specMatchingLines doc query).isEmpty = true then noMatchMsg query
        else joinWithNewline ((specMatchingLines doc query).take 10)) = noMatchMsg query
    rw [if_pos ((hif _).mpr he)]

/-- C2 witness: a matching query returns the matching line, a non-matching
query returns the no-information-found message. -/
theorem search_knowledge_spec_witness :
    search_knowledge "Tasting Room Hours: 10am-5pm\nCabernet list" "tasting" =
      joinWithNewline ((specMatchingLines
        "Tasting Room Hours: 10am-5pm\nCabernet list" "tasting").take 10) ∧
    search_knowledge "Tasting Room Hours: 10am-5pm\nCabernet list" "zzz-no-match" =
      noMatchMsg "zzz-no-match" :=
  ⟨((search_knowledge_spec "Tasting Room Hours: 10am-5pm\nCabernet list" "tasting"
      (by decide)).1 (by decide)).1,
   (search_knowledge_spec "Tasting Room Hours: 10am-5pm\nCabernet list" "zzz-no-match"
      (by decide)).2 (by decide)⟩

/-- C10: when the knowledge file is absent, the loaded document is exactly
the fixed placeholder sentence; searching that store returns the
placeholder line for every query that is a case-insensitive substring of
it, and the no-information-found message for every other query. -/
theorem knowledge_file_missing_search (q : String) :
    load_knowledge FileOutcome.notFound = "Wine business information file not found." ∧
    (strContainsSub (pyLower "Wine business information file not found.")
        (pyLower q) = true →
       search_knowledge (load_knowledge FileOutcome.notFound) q =
         "Wine business information file not found.") ∧
    (strContainsSub (pyLower "Wine business information file not found.")
        (pyLower q) = false →
       search_knowledge (load_knowledge FileOutcome.notFound) q = noMatchMsg q) := by
  refine ⟨rfl, fun h => ?_, fun h => ?_⟩ <;>
    · show search_knowledge "Wine business information file not found." q = _
      rw [search_knowledge]
      rw [if_neg (by decide)]
      rw [show pySplitLines "Wine business information file not found." =
        ["Wine business information file not found."] from rfl]
      simp [List.filter, h, joinWithNewline]

/-- C10 witness: "wine" matches the placeholder, "zzz" does not. -/
theorem knowledge_file_missing_search_witness :
    search_knowledge (load_knowledge FileOutcome.notFound) "wine" =
      "Wine business information file not found." ∧
    search_knowledge (load_knowledge FileOutcome.notFound) "zzz" = noMatchMsg "zzz" :=
  ⟨(knowledge_file_missing_search "wine").2.1 (by decide),
   (knowledge_file_missing_search "zzz").2.2 (by decide)⟩

/-- The trace of `get_weather` is the trace of its `try:` body: the
`except` handler only replaces the result string. -/
theorem get_weather_snd (env : WeatherEnv) (loc : PyLoc) :
    (get_weather env loc).2 = (get_weather_inner env loc).2 := by
  unfold get_weather
  rcases get_weather_inner env loc with ⟨e | v, t⟩ <;> rfl

/-- C3: whenever the completion API fails, `classify_and_respond` returns
the fixed apology carrying the exception text and never throws, and
`POST /chat` still answers 200 with that apology as `bot_response` and
status `"success"`. -/
theorem llm_failure_apology (env : AgentEnv) (msg e : String)
    (hllm : ∀ sys hum, env.llm sys hum = Except.error e)
    (hmsg : pyStrip msg ≠ "") :
    classify_and_respond env msg = processingApologyMsg e ∧
    strContainsSub (processingApologyMsg e) e = true ∧
    chat_endpoint (some env) ⟨some msg, none⟩ =
      (200, RespBody.chatOk msg (processingApologyMsg e) "success") := by
  have hc : classify_and_respond env msg = processingApologyMsg e := by
    unfold classify_and_respond
    rw [hllm]
  refine ⟨hc, ?_, ?_⟩
  · exact strContainsSub_append
      "I apologize, but I'm having trouble processing your request right now. Please try again. Error: " e
  · show (if pyStrip msg = "" then (400, RespBody.errBody "Please provide a message" none)
        else (200, RespBody.chatOk msg (chat env msg) "success")) =
      (200, RespBody.chatOk msg (processingApologyMsg e) "success")
    rw [if_neg hmsg]
    show (200, RespBody.chatOk msg (classify_and_respond env msg) "success") = _
    rw [hc]

/-- C3 witness: a concrete agent whose completion API always raises
`"boom"`. -/
theorem llm_failure_apology_witness :
    classify_and_respond agentEnvLLMFail "hello" = processingApologyMsg "boom" ∧
    strContainsSub (processingApologyMsg "boom") "boom" = true ∧
    chat_endpoint (some agentEnvLLMFail) ⟨some "hello", none⟩ =
      (200, RespBody.chatOk "hello" (processingApologyMsg "boom") "success") :=
  llm_failure_apology agentEnvLLMFail "hello" "boom" (fun _ _ => rfl) (by decide)

/-- C4: for every location string whose trimmed, lowercased form is
`"napa, ca"`, `get_weather` makes exactly one outbound call — the
current-conditions request at the hardcoded pair (38.2975, -122.2869) —
and never calls the geocoding collaborator. -/
theorem napa_hardcoded_coords (env : WeatherEnv) (s : String)
    (h : pyStrip (pyLower s) = "napa, ca") :
    (get_weather env (PyLoc.str s)).2 =
      [WxCall.current (38.2975 : ℚ) (-122.2869 : ℚ)] := by
  rw [get_weather_snd]
  simp [get_weather_inner, h]

/-- C4 witness: the literal location `"Napa, CA"`. -/
theorem napa_hardcoded_coords_witness :
    (get_weather wxEnvStub (PyLoc.str "Napa, CA")).2 =
      [WxCall.current (38.2975 : ℚ) (-122.2869 : ℚ)] :=
  napa_hardcoded_coords wxEnvStub "Napa, CA" (by decide)

/-- C5: evaluating `get_weather` at a directly-supplied coordinate pair.
`location.lower()` is evaluated before the `isinstance(location, tuple)`
check, so every tuple argument raises `AttributeError`, which the
`except` converts into the generic apology; no collaborator is called and
the supplied pair is never used for the current-conditions lookup. -/
theorem pair_location_attribute_error (env : WeatherEnv) (la lo : ℚ) :
    get_weather env (PyLoc.pair la lo) =
      (weatherApologyMsg "'tuple' object has no attribute 'lower'", []) := rfl

/-- C6 counterexample: a non-200 geocoding response (here 500) is an HTTP
failure in the weather path, yet `get_weather` returns the
couldn't-find-coordinates sentence, which carries neither the status code
nor any exception text. -/
theorem weather_non200_geocode_counterexample :
    get_weather wxEnvGeo500 (PyLoc.str "Paris") =
      (couldntFindMsg "Paris", [WxCall.geocode "Paris"]) ∧
    strContainsSub (couldntFindMsg "Paris") "500" = false :=
  ⟨rfl, by decide⟩

/-- C6 amended: no simulated external outcome ever escapes `get_weather`
as an exception; a raised geocoding or current-conditions exception yields
the apology carrying the exception text; a non-200 current-conditions
response yields the trouble sentence carrying the status code; a geocoding
response with zero results — and likewise a NON-200 geocoding response,
which the source folds into the same `(None, None)` case — yields the
couldn't-find-coordinates sentence (without the status code) and never
calls the current-conditions collaborator. -/
theorem weather_failures_contained (env : WeatherEnv) (s m : String) (c : Nat)
    (la lo : ℚ) (rest : List (ℚ × ℚ)) :
    (pyStrip (pyLower s) ≠ "napa, ca" → env.geocode s = HttpOutcome.ok [] →
       get_weather env (PyLoc.str s) = (couldntFindMsg s, [WxCall.geocode s])) ∧
    (pyStrip (pyLower s) ≠ "napa, ca" → env.geocode s = HttpOutcome.errStatus c →
       get_weather env (PyLoc.str s) = (couldntFindMsg s, [WxCall.geocode s])) ∧
    (pyStrip (pyLower s) ≠ "napa, ca" → env.geocode s = HttpOutcome.exn m →
       get_weather env (PyLoc.str s) = (weatherApologyMsg m, [WxCall.geocode s]) ∧
       strContainsSub (weatherApologyMsg m) m = true) ∧
    (pyStrip (pyLower s) ≠ "napa, ca" →
       env.geocode s = HttpOutcome.ok ((la, lo) :: rest) →
       env.current la lo = HttpOutcome.errStatus c →
       get_weather env (PyLoc.str s) =
         (errorCodeMsg c, [WxCall.geocode s, WxCall.current la lo]) ∧
       strContainsSub (errorCodeMsg c) (toString c) = true) ∧
    (pyStrip (pyLower s) ≠ "napa, ca" →
       env.geocode s = HttpOutcome.ok ((la, lo) :: rest) →
       env.current la lo = HttpOutcome.exn m →
       get_weather env (PyLoc.str s) =
         (weatherApologyMsg m, [WxCall.geocode s, WxCall.current la lo])) ∧
    (pyStrip (pyLower s) = "napa, ca" →
       env.current (38.2975 : ℚ) (-122.2869 : ℚ) = HttpOutcome.errStatus c →
       (get_weather env (PyLoc.str s)).1 = errorCodeMsg c) ∧
    (pyStrip (pyLower s) = "napa, ca" →
       env.current (38.2975 : ℚ) (-122.2869 : ℚ) = HttpOutcome.exn m →
       (get_weather env (PyLoc.str s)).1 = weatherApologyMsg m) := by
  refine ⟨fun h hg => ?_, fun h hg => ?_, fun h hg => ⟨?_, ?_⟩,
    fun h hg hc => ⟨?_, ?_⟩, fun h hg hc => ?_, fun h hc => ?_, fun h hc => ?_⟩
  · simp [get_weather, get_weather_inner, get_coordinates, h, hg]
  · simp [get_weather, get_weather_inner, get_coordinates, h, hg]
  · simp [get_weather, get_weather_inner, get_coordinates, h, hg]
  · exact strContainsSub_append
      "I apologize, but I'm having trouble accessing the weather information. Please try again later. Error: " m
  · simp [get_weather, get_weather_inner, get_coordinates, fetchCurrent, h, hg, hc]
  · exact strContainsSub_append
      "Sorry, I'm having trouble getting the weather information right now. Error code: "
      (toString c)
  · simp [get_weather, get_weather_inner, get_coordinates, fetchCurrent, h, hg, hc]
  · simp [get_weather, get_weather_inner, fetchCurrent, h, hc]
  · simp [get_weather, get_weather_inner, fetchCurrent, h, hc]

/-- C6 witness: concrete collaborators exercising the zero-result,
raised-geocode, non-200 current-conditions and napa-path non-200 cases. -/
theorem weather_failures_contained_witness :
    get_weather wxEnvStub (PyLoc.str "Paris") =
      (couldntFindMsg "Paris", [WxCall.geocode "Paris"]) ∧
    (get_weather wxEnvGeoExn (PyLoc.str "Paris") =
       (weatherApologyMsg "timeout", [WxCall.geocode "Paris"]) ∧
     strContainsSub (weatherApologyMsg "timeout") "timeout" = true) ∧
    (get_weather wxEnvCur404 (PyLoc.str "Paris") =
       (errorCodeMsg 404, [WxCall.geocode "Paris", WxCall.current 1 2]) ∧
     strContainsSub (errorCodeMsg 404) (toString 404) = true) ∧
    (get_weather wxEnvCur404 (PyLoc.str "Napa, CA")).1 = errorCodeMsg 404 :=
  ⟨(weather_failures_contained wxEnvStub "Paris" "" 0 0 0 []).1 (by decide) rfl,
   (weather_failures_contained wxEnvGeoExn "Paris" "timeout" 0 0 0 []).2.2.1
     (by decide) rfl,
   (weather_failures_contained wxEnvCur404 "Paris" "" 404 1 2 []).2.2.2.1
     (by decide) rfl rfl,
   (weather_failures_contained wxEnvCur404 "Napa, CA" "" 404 0 0 []).2.2.2.2.2.1
     (by decide) rfl⟩

/-- C7 counterexample: the handler binds `message` as a required form
field only, so a JSON body `{message: "hello"}` without the form field is
rejected by framework validation (422), not accepted; `bot_response` is
the completion reply verbatim and is empty when that reply is empty; and
an empty message with an unavailable agent yields 503, not 400 (the
availability check precedes the emptiness check). -/
theorem chat_endpoint_counterexample :
    chat_endpoint (some agentEnvEmptyReply) ⟨none, some "hello"⟩ =
      (422, RespBody.validationFailure) ∧
    chat_endpoint (some agentEnvEmptyReply) ⟨some "hello", none⟩ =
      (200, RespBody.chatOk "hello" "" "success") ∧
    chat_endpoint none ⟨some "", none⟩ =
      (503, RespBody.errBody "Wine concierge agent not available" none) :=
  ⟨rfl, rfl, rfl⟩

/-- C7 amended: `POST /chat` reads the message from the form field only —
a request without it (in particular a JSON-only request) fails framework
validation with 422; with the form field present, 503 whenever the agent
is unavailable (checked before the emptiness check), 400 when the message
is empty after trimming, and otherwise 200 with `user_message`, the
agent's reply verbatim as `bot_response`, and status `"success"`;
`bot_response` is non-empty whenever the completion reply is non-empty
(in particular whenever the completion call fails, since the fixed
apology is non-empty). -/
theorem chat_endpoint_spec (env : AgentEnv) (msg : String) (j : Option String) :
    chat_endpoint (some env) ⟨none, j⟩ = (422, RespBody.validationFailure) ∧
    chat_endpoint none ⟨some msg, j⟩ =
      (503, RespBody.errBody "Wine concierge agent not available" none) ∧
    (pyStrip msg = "" → chat_endpoint (some env) ⟨some msg, j⟩ =
      (400, RespBody.errBody "Please provide a message" none)) ∧
    (pyStrip msg ≠ "" → chat_endpoint (some env) ⟨some msg, j⟩ =
      (200, RespBody.chatOk msg (chat env msg) "success")) ∧
    (pyStrip msg ≠ "" →
      (∀ r, env.llm system_prompt
          (humanPrompt msg (contextFor env (toolCallOf msg))) = Except.ok r →
        r ≠ "") →
      chat env msg ≠ "") := by
  refine ⟨rfl, rfl, fun h => ?_, fun h => ?_, fun _ hr => ?_⟩
  · simp [chat_endpoint, h]
  · simp [chat_endpoint, h]
  · unfold chat classify_and_respond
    cases hllm : env.llm system_prompt
        (humanPrompt msg (contextFor env (toolCallOf msg))) with
    | ok r => exact hr r hllm
    | error e =>
      exact string_append_ne_empty
        "I apologize, but I'm having trouble processing your request right now. Please try again. Error: "
        e (by decide)

/-- C7 witness: concrete requests against an agent whose completion API
always fails. -/
theorem chat_endpoint_spec_witness :
    chat_endpoint (some agentEnvLLMFail) ⟨some "hi there", none⟩ =
      (200, RespBody.chatOk "hi there" (chat agentEnvLLMFail "hi there") "success") ∧
    chat_endpoint (some agentEnvLLMFail) ⟨some "   ", none⟩ =
      (400, RespBody.errBody "Please provide a message" none) ∧
    chat agentEnvLLMFail "hi there" ≠ "" :=
  ⟨(chat_endpoint_spec agentEnvLLMFail "hi there" none).2.2.2.1 (by decide),
   (chat_endpoint_spec agentEnvLLMFail "   " none).2.2.1 (by decide),
   (chat_endpoint_spec agentEnvLLMFail "hi there" none).2.2.2.2 (by decide)
     (fun r h => Except.noConfusion h)⟩

/-- C8: `search_web` returns the formatted error string when the search
collaborator raises, the fixed no-results sentence when the (truncated)
result set is empty, and otherwise the header line followed by the
enumerated, formatted results — at most `max_results` of them, in order,
each snippet sliced to at most 200 characters. -/
theorem search_web_spec (ddg : String → Except String (List DDGResult))
    (q e : String) (n : Nat) (stream : List DDGResult) :
    (ddg q = Except.error e →
       search_web ddg q n = searchErrMsg e ∧
       strContainsSub (searchErrMsg e) e = true) ∧
    (ddg q = Except.ok stream → stream.take n = [] →
       search_web ddg q n = noResultsMsg) ∧
    (ddg q = Except.ok stream → stream.take n ≠ [] →
       search_web ddg q n =
         "Web Search Results:\n" ++
           joinWithNewline (formatSearchResults 1 (stream.take n)) ∧
       (stream.take n).length ≤ n) ∧
    (∀ r : DDGResult, (pyTake 200 r.body).length ≤ 200) := by
  have hif : ∀ (l : List DDGResult), l.isEmpty = true ↔ l = [] := by
    intro l
    cases l <;> simp [List.isEmpty]
  refine ⟨fun h => ⟨?_, ?_⟩, fun h he => ?_, fun h hne => ⟨?_, List.length_take_le n _⟩,
    fun r => ?_⟩
  · simp [search_web, h]
  · exact strContainsSub_append "Web search error: " e
  · simp [search_web, h, he]
  · unfold search_web
    rw [h]
    show (if (stream.take n).isEmpty = true then noResultsMsg
        else "Web Search Results:\n" ++
          joinWithNewline (formatSearchResults 1 (stream.take n))) = _
    rw [if_neg (fun hE => hne ((hif _).mp hE))]
  · exact List.length_take_le 200 _

/-- C8 witness: a raising collaborator, an empty stream, and a two-result
stream under the default maximum of 3. -/
theorem search_web_spec_witness :
    (search_web ddgErrStub "napa news" 3 = searchErrMsg "rate limited" ∧
     strContainsSub (searchErrMsg "rate limited") "rate limited" = true) ∧
    search_web ddgEmptyStub "napa news" 3 = noResultsMsg ∧
    search_web ddgTwoStub "napa news" 3 =
      "Web Search Results:\n" ++
        joinWithNewline (formatSearchResults 1
          (([⟨"A", "alpha", "ua"⟩, ⟨"B", "beta", "ub"⟩] : List DDGResult).take 3)) :=
  ⟨(search_web_spec ddgErrStub "napa news" "rate limited" 3 []).1 rfl,
   (search_web_spec ddgEmptyStub "napa news" "" 3 []).2.1 rfl rfl,
   ((search_web_spec ddgTwoStub "napa news" "" 3
       [⟨"A", "alpha", "ua"⟩, ⟨"B", "beta", "ub"⟩]).2.2.1 rfl (by decide)).1⟩

/-- C9: `POST /api/weather` with both coordinates present returns 200
whose body is the raw string of the weather-tool call the source makes
with that pair, and 400 when either coordinate is missing. -/
theorem weather_api_spec (env : WeatherEnv) (la lo : ℚ) (l1 l2 : Option ℚ) :
    weather_api env (some la) (some lo) =
      (200, RespBody.rawBody (get_weather env (PyLoc.num la)).1) ∧
    (l1 = none ∨ l2 = none →
      weather_api env l1 l2 =
        (400, RespBody.errBody "Latitude and longitude required" none)) := by
  refine ⟨rfl, fun h => ?_⟩
  rcases h with h | h
  · subst h
    cases l2 <;> rfl
  · subst h
    cases l1 <;> rfl

/-- C9 witness: a present pair and a missing latitude. -/
theorem weather_api_spec_witness :
    weather_api wxEnvStub (some 1) (some 2) =
      (200, RespBody.rawBody (get_weather wxEnvStub (PyLoc.num 1)).1) ∧
    weather_api wxEnvStub none (some 2) =
      (400, RespBody.errBody "Latitude and longitude required" none) :=
  ⟨(weather_api_spec wxEnvStub 1 2 none (some 2)).1,
   (weather_api_spec wxEnvStub 1 2 none (some 2)).2 (Or.inl rfl)⟩
